import Mathlib

/-!
Verification of the instructional agent-loop demo (`main.py`).

The script is a single-threaded simulation: a `DemoState` record is mutated
once per loop iteration by `update_state_after_attempt`, driven by three
stubbed steps (`pretend_plan`, `pretend_act`, `pretend_check`) that draw from
Python's seeded global `random` generator.  We embed the program shallowly:

* Python floats are modelled as exact rationals (`ℚ`); every float constant
  in the script (0.12, 0.10, 0.06, 0.99, 0.95, 0.65, 0.35, 0.05) is a short
  decimal, and the claims are about the intended real-number arithmetic.
* the seeded pseudo-random generator is modelled as abstract draw streams
  plus a cursor (`Rng`); `random.random()` consumes one unit-interval draw,
  `random.choice` consumes one index draw.  This preserves the exact order
  and conditional consumption of draws (`pretend_act` draws only when
  `confidence ≤ 0.65`).
* `time.sleep` and `print` affect no state and are dropped; the printed
  snapshots are retained as explicit trace records (`StepOutcome`).
* the `for _ in range(max_attempts)` loops become structural recursion on a
  fuel equal to `max_attempts`, and each early `return` becomes an
  immediately returned terminal status.
-/

namespace Demo

/-- Terminal status of a loop run: success stop, fail-streak escalation,
or falling out of the `for` loop. -/
inductive LoopStatus where
  | DONE
  | ESCALATE_TO_HUMAN
  | MAX_ATTEMPTS_EXHAUSTED
deriving Repr, DecidableEq

/-- The mutable record of `main.py` (`@dataclass DemoState`), floats as `ℚ`. -/
structure DemoState where
  attempts : Nat
  total_cost : ℚ
  confidence : ℚ
  last_result : String
deriving Repr, DecidableEq

/-- The dataclass defaults: `attempts=0, total_cost=0.0, confidence=0.35,
last_result="UNKNOWN"`. -/
def initState : DemoState :=
  { attempts := 0, total_cost := 0, confidence := 35/100, last_result := "UNKNOWN" }

/-- The seeded pseudo-random generator, abstracted as two draw streams with a
shared cursor: `random.random()` reads a unit-interval rational from
`stream`, `random.choice` reads an index draw from `istream` (CPython's
`choice` goes through the integer `_randbelow`, not through `random()`).
`random.seed(RANDOM_SEED)` fixes both streams; every draw advances the
shared cursor by one, so later draws depend on how many came before. -/
structure Rng where
  stream : Nat → ℚ
  istream : Nat → Nat
  pos : Nat

/-- One call of `random.random()`: read the next unit draw, advance. -/
def randUnit (g : Rng) : ℚ × Rng :=
  (g.stream g.pos, ⟨g.stream, g.istream, g.pos + 1⟩)

/-- One call of `random.choice(xs)`: consume one index draw (reduced modulo
the fixed list length, as `_randbelow len` is uniform below the length). -/
def randChoice (xs : List String) (g : Rng) : String × Rng :=
  (xs.getD (g.istream g.pos % xs.length) "", ⟨g.stream, g.istream, g.pos + 1⟩)

/-- The four canned plans of `pretend_plan`. -/
def plansList : List String :=
  ["Try the most likely fix first.",
   "Make a small change and re-check.",
   "Assume the last approach was close and retry.",
   "Proceed with a quick patch and validate."]

/-- The four canned actions of `pretend_act`. -/
def actionsList : List String :=
  ["Apply patch A (fast).",
   "Apply patch A again (confidence up).",
   "Apply patch A with tiny tweak.",
   "Reformat and retry (low effort)."]

/-- `pretend_plan`: `random.choice(plans)`; the state argument is unused. -/
def pretend_plan (_state : DemoState) (g : Rng) : String × Rng :=
  randChoice plansList g

/-- `pretend_act`: above confidence 0.65 the agent returns the fixed
overconfident string without drawing; otherwise `random.choice(actions)`. -/
def pretend_act (state : DemoState) (g : Rng) : String × Rng :=
  if state.confidence > 65/100 then
    ("Apply patch A again (overconfident repeat).", g)
  else
    randChoice actionsList g

/-- `pretend_check`: one `random.random()` draw; success iff it is below the
fixed `success_probability = 0.05`, independent of the state. -/
def pretend_check (_state : DemoState) (g : Rng) : (Bool × String) × Rng :=
  let p := randUnit g
  if p.1 < 5/100 then ((true, "PASS (unexpected)"), p.2)
  else ((false, "FAIL (root cause unchanged)"), p.2)

/-- `update_state_after_attempt`: increments `attempts`, records the result,
adds the unconditional per-attempt cost 0.12, and drifts confidence up
(`min(0.99, c+0.10)` on success, `min(0.95, c+0.06)` on failure). -/
def update_state_after_attempt (state : DemoState) (success : Bool) (result : String) :
    DemoState :=
  let s1 : DemoState :=
    { state with
      attempts := state.attempts + 1
      last_result := result
      total_cost := state.total_cost + 12/100 }
  if success then
    { s1 with confidence := min (99/100) (s1.confidence + 10/100) }
  else
    { s1 with confidence := min (95/100) (s1.confidence + 6/100) }

/-- The snapshot printed each iteration: plan line, action line, check result,
verdict, and the state after `update_state_after_attempt`. -/
structure StepOutcome where
  plan : String
  action : String
  result : String
  success : Bool
  stateAfter : DemoState
deriving Repr, DecidableEq

/-- The body shared verbatim by both loops: plan → act → check → update,
threading the generator through in program order. -/
def do_step (s : DemoState) (g : Rng) : StepOutcome × Rng :=
  let pr := pretend_plan s g
  let ar := pretend_act s pr.2
  let cr := pretend_check s ar.2
  ({ plan := pr.1, action := ar.1, result := cr.1.2, success := cr.1.1,
     stateAfter := update_state_after_attempt s cr.1.1 cr.1.2 }, cr.2)

/-- Result of a naive loop run: the per-iteration snapshots, the terminal
status, the final state, and the generator as left by the run. -/
structure NaiveResult where
  trace : List StepOutcome
  status : LoopStatus
  final : DemoState
  rng : Rng

/-- `run_naive_agent_loop`, recursion on the remaining iterations of
`for _ in range(max_attempts)`: after each update the loop returns (`DONE`)
exactly when the check succeeded; running out of iterations is
`MAX_ATTEMPTS_EXHAUSTED`. -/
def run_naive_loop : Nat → DemoState → Rng → NaiveResult
  | 0, s, g => ⟨[], .MAX_ATTEMPTS_EXHAUSTED, s, g⟩
  | n + 1, s, g =>
    let p := do_step s g
    if p.1.success then ⟨[p.1], .DONE, p.1.stateAfter, p.2⟩
    else
      let R := run_naive_loop n p.1.stateAfter p.2
      ⟨p.1 :: R.trace, R.status, R.final, R.rng⟩

/-- `run_naive_agent_loop(max_attempts)` started from the fresh state. -/
def run_naive_agent_loop (max_attempts : Nat) (g : Rng) : NaiveResult :=
  run_naive_loop max_attempts initState g

/-- One iteration record of the guarded loop: the shared snapshot plus the
`fail_streak` value printed on the STATE line (after reset/increment). -/
structure GuardedStep where
  outcome : StepOutcome
  fail_streak : Nat
deriving Repr, DecidableEq

/-- Result of a guarded loop run. -/
structure GuardedResult where
  trace : List GuardedStep
  status : LoopStatus
  final : DemoState
  rng : Rng

/-- The guarded loop's streak update: `fail_streak = 0` on success, else
`fail_streak += 1`. -/
def next_streak (success : Bool) (streak : Nat) : Nat :=
  if success then 0 else streak + 1

/-- `run_guarded_agent_loop`: same body, then `fail_streak` is reset to 0 on
success and incremented on failure; when `fail_streak >= fail_streak_stop`
the loop returns with the escalation message.  There is no success-stop in
this loop: a successful check only resets the streak. -/
def run_guarded_loop : Nat → DemoState → Nat → Nat → Rng → GuardedResult
  | 0, s, _, _, g => ⟨[], .MAX_ATTEMPTS_EXHAUSTED, s, g⟩
  | n + 1, s, streak, stop, g =>
    let p := do_step s g
    let streak2 := next_streak p.1.success streak
    if stop ≤ streak2 then ⟨[⟨p.1, streak2⟩], .ESCALATE_TO_HUMAN, p.1.stateAfter, p.2⟩
    else
      let R := run_guarded_loop n p.1.stateAfter streak2 stop p.2
      ⟨⟨p.1, streak2⟩ :: R.trace, R.status, R.final, R.rng⟩

/-- `run_guarded_agent_loop(max_attempts, fail_streak_stop)` from the fresh
state with `fail_streak = 0`. -/
def run_guarded_agent_loop (max_attempts fail_streak_stop : Nat) (g : Rng) : GuardedResult :=
  run_guarded_loop max_attempts initState 0 fail_streak_stop g

/-- `main()`: seed the generator, run the naive loop with `max_attempts=10`,
then the guarded loop with `max_attempts=10, fail_streak_stop=3`, the second
run continuing the same generator.  The observable trace is the pair of run
traces and statuses. -/
def main_run (g : Rng) :
    (List StepOutcome × LoopStatus) × (List GuardedStep × LoopStatus) :=
  let R1 := run_naive_agent_loop 10 g
  let R2 := run_guarded_agent_loop 10 3 R1.rng
  ((R1.trace, R1.status), (R2.trace, R2.status))

/-- An all-zero generator stream: every `random.random()` draw is 0 (so every
check succeeds) and every `random.choice` picks the first element. -/
def gZero : Rng := ⟨fun _ => 0, fun _ => 0, 0⟩

/-- A generator stream on which every check fails (draw 1/2 is ≥ 0.05) and
every choice picks the first element. -/
def gHalf : Rng := ⟨fun _ => 1/2, fun _ => 0, 0⟩

/-- A generator stream whose check draws succeed for seven iterations and
fail afterwards.  The positions 2, 5, 8, 11 are the check draws of the first
four iterations (three draws each while `confidence ≤ 0.65`); 13, 15, 17 are
the check draws of iterations five to seven (two draws each once the act
step stops drawing); 19 is the failing eighth check. -/
def gSevenWins : Rng :=
  ⟨fun k =>
    if k = 2 ∨ k = 5 ∨ k = 8 ∨ k = 11 ∨ k = 13 ∨ k = 15 ∨ k = 17 then 0 else 1/2,
   fun _ => 0, 0⟩

/-! ### Basic lemmas about one attempt -/

lemma update_attempts (s : DemoState) (b : Bool) (r : String) :
    (update_state_after_attempt s b r).attempts = s.attempts + 1 := by
  cases b <;> rfl

lemma update_cost (s : DemoState) (b : Bool) (r : String) :
    (update_state_after_attempt s b r).total_cost = s.total_cost + 12/100 := by
  cases b <;> rfl

lemma update_conf_le (s : DemoState) (b : Bool) (r : String) :
    (update_state_after_attempt s b r).confidence ≤ 99/100 := by
  cases b
  · show min (95/100 : ℚ) (s.confidence + 6/100) ≤ 99/100
    exact le_trans (min_le_left _ _) (by norm_num)
  · show min (99/100 : ℚ) (s.confidence + 10/100) ≤ 99/100
    exact min_le_left _ _

lemma do_step_stateAfter (s : DemoState) (g : Rng) :
    (do_step s g).1.stateAfter =
      update_state_after_attempt s (do_step s g).1.success (do_step s g).1.result := rfl

lemma do_step_attempts (s : DemoState) (g : Rng) :
    (do_step s g).1.stateAfter.attempts = s.attempts + 1 := by
  rw [do_step_stateAfter]; exact update_attempts _ _ _

lemma do_step_cost (s : DemoState) (g : Rng) :
    (do_step s g).1.stateAfter.total_cost = s.total_cost + 12/100 := by
  rw [do_step_stateAfter]; exact update_cost _ _ _

lemma do_step_conf_le (s : DemoState) (g : Rng) :
    (do_step s g).1.stateAfter.confidence ≤ 99/100 := by
  rw [do_step_stateAfter]; exact update_conf_le _ _ _

/-! ### One-step unfolding equations for the two loops -/

lemma run_naive_loop_succ (n : ℕ) (s : DemoState) (g : Rng) :
    run_naive_loop (n + 1) s g =
      (if (do_step s g).1.success
       then ⟨[(do_step s g).1], .DONE, (do_step s g).1.stateAfter, (do_step s g).2⟩
       else
         ⟨(do_step s g).1 ::
             (run_naive_loop n (do_step s g).1.stateAfter (do_step s g).2).trace,
          (run_naive_loop n (do_step s g).1.stateAfter (do_step s g).2).status,
          (run_naive_loop n (do_step s g).1.stateAfter (do_step s g).2).final,
          (run_naive_loop n (do_step s g).1.stateAfter (do_step s g).2).rng⟩) := rfl

lemma run_guarded_loop_succ (n : ℕ) (s : DemoState) (streak stop : ℕ) (g : Rng) :
    run_guarded_loop (n + 1) s streak stop g =
      (if stop ≤ next_streak (do_step s g).1.success streak
       then
         ⟨[⟨(do_step s g).1, next_streak (do_step s g).1.success streak⟩],
          .ESCALATE_TO_HUMAN, (do_step s g).1.stateAfter, (do_step s g).2⟩
       else
         ⟨⟨(do_step s g).1, next_streak (do_step s g).1.success streak⟩ ::
             (run_guarded_loop n (do_step s g).1.stateAfter
               (next_streak (do_step s g).1.success streak) stop (do_step s g).2).trace,
          (run_guarded_loop n (do_step s g).1.stateAfter
            (next_streak (do_step s g).1.success streak) stop (do_step s g).2).status,
          (run_guarded_loop n (do_step s g).1.stateAfter
            (next_streak (do_step s g).1.success streak) stop (do_step s g).2).final,
          (run_guarded_loop n (do_step s g).1.stateAfter
            (next_streak (do_step s g).1.success streak) stop (do_step s g).2).rng⟩) := rfl

/-! ### Index-wise trace facts: attempts and cost -/

lemma naive_spec (n : ℕ) :
    ∀ (s : DemoState) (g : Rng),
      (run_naive_loop n s g).trace.length ≤ n ∧
      ∀ i (h : i < (run_naive_loop n s g).trace.length),
        ((run_naive_loop n s g).trace.get ⟨i, h⟩).stateAfter.attempts = s.attempts + (i + 1) ∧
        ((run_naive_loop n s g).trace.get ⟨i, h⟩).stateAfter.total_cost =
          s.total_cost + ((i : ℚ) + 1) * (12/100) := by
  induction n with
  | zero =>
    intro s g
    exact ⟨Nat.le_refl 0, fun i h => absurd h (Nat.not_lt_zero i)⟩
  | succ n ih =>
    intro s g
    rw [run_naive_loop_succ]
    by_cases hs : (do_step s g).1.success
    · rw [if_pos hs]
      refine ⟨by simp, ?_⟩
      intro i h
      simp only [List.length_singleton] at h
      obtain rfl : i = 0 := by omega
      refine ⟨?_, ?_⟩
      · show (do_step s g).1.stateAfter.attempts = _
        rw [do_step_attempts]
      · show (do_step s g).1.stateAfter.total_cost = _
        rw [do_step_cost]; push_cast; ring
    · rw [if_neg hs]
      refine ⟨?_, ?_⟩
      · simp only [List.length_cons]
        exact Nat.succ_le_succ (ih (do_step s g).1.stateAfter (do_step s g).2).1
      · intro i h
        cases i with
        | zero =>
          refine ⟨?_, ?_⟩
          · show (do_step s g).1.stateAfter.attempts = _
            rw [do_step_attempts]
          · show (do_step s g).1.stateAfter.total_cost = _
            rw [do_step_cost]; push_cast; ring
        | succ j =>
          simp only [List.length_cons] at h
          have hj : j < (run_naive_loop n (do_step s g).1.stateAfter (do_step s g).2).trace.length :=
            Nat.lt_of_succ_lt_succ h
          have hrec := (ih (do_step s g).1.stateAfter (do_step s g).2).2 j hj
          refine ⟨?_, ?_⟩
          · show ((run_naive_loop n (do_step s g).1.stateAfter
                (do_step s g).2).trace.get ⟨j, hj⟩).stateAfter.attempts = _
            rw [hrec.1, do_step_attempts]; omega
          · show ((run_naive_loop n (do_step s g).1.stateAfter
                (do_step s g).2).trace.get ⟨j, hj⟩).stateAfter.total_cost = _
            rw [hrec.2, do_step_cost]; push_cast; ring

lemma guarded_spec (n : ℕ) :
    ∀ (s : DemoState) (streak stop : ℕ) (g : Rng),
      (run_guarded_loop n s streak stop g).trace.length ≤ n ∧
      ∀ i (h : i < (run_guarded_loop n s streak stop g).trace.length),
        ((run_guarded_loop n s streak stop g).trace.get
            ⟨i, h⟩).outcome.stateAfter.attempts = s.attempts + (i + 1) ∧
        ((run_guarded_loop n s streak stop g).trace.get
            ⟨i, h⟩).outcome.stateAfter.total_cost =
          s.total_cost + ((i : ℚ) + 1) * (12/100) := by
  induction n with
  | zero =>
    intro s streak stop g
    exact ⟨Nat.le_refl 0, fun i h => absurd h (Nat.not_lt_zero i)⟩
  | succ n ih =>
    intro s streak stop g
    rw [run_guarded_loop_succ]
    by_cases hstop : stop ≤ next_streak (do_step s g).1.success streak
    · rw [if_pos hstop]
      refine ⟨by simp, ?_⟩
      intro i h
      simp only [List.length_singleton] at h
      obtain rfl : i = 0 := by omega
      refine ⟨?_, ?_⟩
      · show (do_step s g).1.stateAfter.attempts = _
        rw [do_step_attempts]
      · show (do_step s g).1.stateAfter.total_cost = _
        rw [do_step_cost]; push_cast; ring
    · rw [if_neg hstop]
      refine ⟨?_, ?_⟩
      · simp only [List.length_cons]
        exact Nat.succ_le_succ
          (ih (do_step s g).1.stateAfter (next_streak (do_step s g).1.success streak)
            stop (do_step s g).2).1
      · intro i h
        cases i with
        | zero =>
          refine ⟨?_, ?_⟩
          · show (do_step s g).1.stateAfter.attempts = _
            rw [do_step_attempts]
          · show (do_step s g).1.stateAfter.total_cost = _
            rw [do_step_cost]; push_cast; ring
        | succ j =>
          simp only [List.length_cons] at h
          have hj : j < (run_guarded_loop n (do_step s g).1.stateAfter
              (next_streak (do_step s g).1.success streak) stop (do_step s g).2).trace.length :=
            Nat.lt_of_succ_lt_succ h
          have hrec := (ih (do_step s g).1.stateAfter
            (next_streak (do_step s g).1.success streak) stop (do_step s g).2).2 j hj
          refine ⟨?_, ?_⟩
          · show ((run_guarded_loop n (do_step s g).1.stateAfter
                (next_streak (do_step s g).1.success streak) stop
                (do_step s g).2).trace.get ⟨j, hj⟩).outcome.stateAfter.attempts = _
            rw [hrec.1, do_step_attempts]; omega
          · show ((run_guarded_loop n (do_step s g).1.stateAfter
                (next_streak (do_step s g).1.success streak) stop
                (do_step s g).2).trace.get ⟨j, hj⟩).outcome.stateAfter.total_cost = _
            rw [hrec.2, do_step_cost]; push_cast; ring

/-! ### Terminal statuses and halt reasons -/

lemma naive_status (n : ℕ) :
    ∀ (s : DemoState) (g : Rng),
      (run_naive_loop n s g).status = .DONE ∨
      (run_naive_loop n s g).status = .MAX_ATTEMPTS_EXHAUSTED := by
  induction n with
  | zero => intro s g; exact Or.inr rfl
  | succ n ih =>
    intro s g
    rw [run_naive_loop_succ]
    by_cases hs : (do_step s g).1.success
    · rw [if_pos hs]; exact Or.inl rfl
    · rw [if_neg hs]
      exact ih (do_step s g).1.stateAfter (do_step s g).2

lemma guarded_status (n : ℕ) :
    ∀ (s : DemoState) (streak stop : ℕ) (g : Rng),
      (run_guarded_loop n s streak stop g).status = .ESCALATE_TO_HUMAN ∨
      (run_guarded_loop n s streak stop g).status = .MAX_ATTEMPTS_EXHAUSTED := by
  induction n with
  | zero => intro s streak stop g; exact Or.inr rfl
  | succ n ih =>
    intro s streak stop g
    rw [run_guarded_loop_succ]
    by_cases hstop : stop ≤ next_streak (do_step s g).1.success streak
    · rw [if_pos hstop]; exact Or.inl rfl
    · rw [if_neg hstop]
      exact ih (do_step s g).1.stateAfter (next_streak (do_step s g).1.success streak)
        stop (do_step s g).2

lemma naive_success_last (n : ℕ) :
    ∀ (s : DemoState) (g : Rng) (i : ℕ) (step : StepOutcome),
      (run_naive_loop n s g).trace.get? i = some step → step.success = true →
        (run_naive_loop n s g).status = .DONE ∧
        i + 1 = (run_naive_loop n s g).trace.length := by
  induction n with
  | zero =>
    intro s g i step hm
    cases i <;> exact absurd hm (by simp [run_naive_loop])
  | succ n ih =>
    intro s g i step hm
    rw [run_naive_loop_succ] at hm ⊢
    by_cases hs : (do_step s g).1.success
    · rw [if_pos hs] at hm ⊢
      cases i with
      | zero =>
        intro _
        exact ⟨rfl, rfl⟩
      | succ j =>
        have : ([] : List StepOutcome).get? j = some step := hm
        cases j <;> exact absurd this (by simp)
    · rw [if_neg hs] at hm ⊢
      cases i with
      | zero =>
        intro hzero
        have : step = (do_step s g).1 := Option.some.inj hm.symm
        rw [this] at hzero
        exact absurd hzero hs
      | succ j =>
        intro hsucc
        have hm2 : (run_naive_loop n (do_step s g).1.stateAfter
            (do_step s g).2).trace.get? j = some step := hm
        have hrec := ih (do_step s g).1.stateAfter (do_step s g).2 j step hm2 hsucc
        refine ⟨hrec.1, ?_⟩
        simp only [List.length_cons]
        omega

/-! ### Confidence stays within its declared bound -/

lemma naive_conf (n : ℕ) :
    ∀ (s : DemoState) (g : Rng) (step : StepOutcome),
      step ∈ (run_naive_loop n s g).trace → step.stateAfter.confidence ≤ 99/100 := by
  induction n with
  | zero =>
    intro s g step hm
    exact absurd hm (List.not_mem_nil step)
  | succ n ih =>
    intro s g step hm
    rw [run_naive_loop_succ] at hm
    by_cases hs : (do_step s g).1.success
    · rw [if_pos hs] at hm
      have : step = (do_step s g).1 := List.mem_singleton.mp hm
      rw [this]
      exact do_step_conf_le s g
    · rw [if_neg hs] at hm
      rcases List.mem_cons.mp hm with he | ht
      · rw [he]; exact do_step_conf_le s g
      · exact ih (do_step s g).1.stateAfter (do_step s g).2 step ht

lemma guarded_conf (n : ℕ) :
    ∀ (s : DemoState) (streak stop : ℕ) (g : Rng) (gs : GuardedStep),
      gs ∈ (run_guarded_loop n s streak stop g).trace →
        gs.outcome.stateAfter.confidence ≤ 99/100 := by
  induction n with
  | zero =>
    intro s streak stop g gs hm
    exact absurd hm (List.not_mem_nil gs)
  | succ n ih =>
    intro s streak stop g gs hm
    rw [run_guarded_loop_succ] at hm
    by_cases hstop : stop ≤ next_streak (do_step s g).1.success streak
    · rw [if_pos hstop] at hm
      have : gs = ⟨(do_step s g).1, next_streak (do_step s g).1.success streak⟩ :=
        List.mem_singleton.mp hm
      rw [this]
      exact do_step_conf_le s g
    · rw [if_neg hstop] at hm
      rcases List.mem_cons.mp hm with he | ht
      · rw [he]; exact do_step_conf_le s g
      · exact ih (do_step s g).1.stateAfter (next_streak (do_step s g).1.success streak)
          stop (do_step s g).2 gs ht

/-! ### Fail-streak bookkeeping of the guarded loop -/

lemma guarded_streak_spec (n : ℕ) :
    ∀ (s : DemoState) (streak stop : ℕ) (g : Rng),
      (∀ gs : GuardedStep,
        (run_guarded_loop n s streak stop g).trace.get? 0 = some gs →
          gs.fail_streak = next_streak gs.outcome.success streak) ∧
      (∀ (i : ℕ) (gsp gs : GuardedStep),
        (run_guarded_loop n s streak stop g).trace.get? i = some gsp →
        (run_guarded_loop n s streak stop g).trace.get? (i + 1) = some gs →
          gs.fail_streak = next_streak gs.outcome.success gsp.fail_streak) ∧
      (∀ (i : ℕ) (gs : GuardedStep),
        (run_guarded_loop n s streak stop g).trace.get? i = some gs →
        stop ≤ gs.fail_streak →
          (run_guarded_loop n s streak stop g).status = .ESCALATE_TO_HUMAN ∧
          i + 1 = (run_guarded_loop n s streak stop g).trace.length) := by
  induction n with
  | zero =>
    intro s streak stop g
    refine ⟨?_, ?_, ?_⟩
    · intro gs hm; exact absurd hm (by simp [run_guarded_loop])
    · intro i gsp gs hmp hm
      cases i <;> exact absurd hmp (by simp [run_guarded_loop])
    · intro i gs hm _
      cases i <;> exact absurd hm (by simp [run_guarded_loop])
  | succ n ih =>
    intro s streak stop g
    rw [run_guarded_loop_succ]
    by_cases hstop : stop ≤ next_streak (do_step s g).1.success streak
    · rw [if_pos hstop]
      refine ⟨?_, ?_, ?_⟩
      · intro gs hm
        have : gs = ⟨(do_step s g).1, next_streak (do_step s g).1.success streak⟩ :=
          Option.some.inj hm.symm
        rw [this]
      · intro i gsp gs _ hm
        cases i with
        | zero => exact absurd hm (by simp)
        | succ j =>
          have : ([] : List GuardedStep).get? j = some gs := hm
          cases j <;> exact absurd this (by simp)
      · intro i gs hm _
        cases i with
        | zero => exact ⟨rfl, rfl⟩
        | succ j =>
          have : ([] : List GuardedStep).get? j = some gs := hm
          cases j <;> exact absurd this (by simp)
    · rw [if_neg hstop]
      have IH := ih (do_step s g).1.stateAfter (next_streak (do_step s g).1.success streak)
        stop (do_step s g).2
      refine ⟨?_, ?_, ?_⟩
      · intro gs hm
        have : gs = ⟨(do_step s g).1, next_streak (do_step s g).1.success streak⟩ :=
          Option.some.inj hm.symm
        rw [this]
      · intro i gsp gs hmp hm
        cases i with
        | zero =>
          have hp : gsp = ⟨(do_step s g).1, next_streak (do_step s g).1.success streak⟩ :=
            Option.some.inj hmp.symm
          have hm2 : (run_guarded_loop n (do_step s g).1.stateAfter
              (next_streak (do_step s g).1.success streak) stop
              (do_step s g).2).trace.get? 0 = some gs := hm
          rw [hp]
          exact IH.1 gs hm2
        | succ j =>
          have hmp2 : (run_guarded_loop n (do_step s g).1.stateAfter
              (next_streak (do_step s g).1.success streak) stop
              (do_step s g).2).trace.get? j = some gsp := hmp
          have hm2 : (run_guarded_loop n (do_step s g).1.stateAfter
              (next_streak (do_step s g).1.success streak) stop
              (do_step s g).2).trace.get? (j + 1) = some gs := hm
          exact IH.2.1 j gsp gs hmp2 hm2
      · intro i gs hm hge
        cases i with
        | zero =>
          have he : gs = ⟨(do_step s g).1, next_streak (do_step s g).1.success streak⟩ :=
            Option.some.inj hm.symm
          rw [he] at hge
          exact absurd hge hstop
        | succ j =>
          have hm2 : (run_guarded_loop n (do_step s g).1.stateAfter
              (next_streak (do_step s g).1.success streak) stop
              (do_step s g).2).trace.get? j = some gs := hm
          have hrec := IH.2.2 j gs hm2 hge
          refine ⟨hrec.1, ?_⟩
          simp only [List.length_cons]
          omega

/-! ### Confidence drift of a single update -/

lemma update_conf_mono_success (s : DemoState) (r : String)
    (h : s.confidence ≤ 99/100) :
    s.confidence ≤ (update_state_after_attempt s true r).confidence := by
  show s.confidence ≤ min (99/100) (s.confidence + 10/100)
  exact le_min h (by linarith)

lemma update_conf_mono_fail (s : DemoState) (r : String)
    (h : s.confidence ≤ 95/100) :
    s.confidence ≤ (update_state_after_attempt s false r).confidence := by
  show s.confidence ≤ min (95/100) (s.confidence + 6/100)
  exact le_min h (by linarith)

lemma update_conf_fail_clamp (s : DemoState) (r : String)
    (h : 95/100 < s.confidence) :
    (update_state_after_attempt s false r).confidence = 95/100 := by
  show min (95/100 : ℚ) (s.confidence + 6/100) = 95/100
  exact min_eq_left (by linarith)

/-! ### The structured-output fallback (not present under `src/`) -/

/-- Modelled from the spec: the "toy parse model output validator" script is
not under `src/` (only `main.py` is); the spec describes a simulated model
response parsed as a structured record with two required fields and an
allowed action value.  A response is key/value pairs; the required field
names and the allowed action set are placeholders for the missing script's
literals. -/
def required_keys : List String := ["action", "reason"]

/-- Modelled from the spec: the allowed action values of the missing
validator script (placeholder literals). -/
def allowed_actions : List String := ["RETRY", "ESCALATE", "STOP"]

/-- Modelled from the spec: first tier — strict structured parsing.  Returns
`none` on any failure: a missing required field or a disallowed action
value. -/
def parse_model_output (resp : List (String × String)) : Option (String × String) :=
  match (resp.find? (fun p => p.1 = "action")).map Prod.snd,
        (resp.find? (fun p => p.1 = "reason")).map Prod.snd with
  | some a, some r => if a ∈ allowed_actions then some (a, r) else none
  | _, _ => none

/-- Modelled from the spec: the fixed heuristic decision used as the second
tier of the fallback. -/
def heuristic_decision : String × String :=
  ("ESCALATE", "heuristic fallback: malformed model output")

/-- Modelled from the spec: the two-tier decision — strict parse, and on any
parse or schema failure the fixed heuristic decision.  Total by
construction: no crash, no halt, and the parse is attempted exactly once. -/
def decide_from_model_output (resp : List (String × String)) : String × String :=
  match parse_model_output resp with
  | some d => d
  | none => heuristic_decision

/-! ### Claims -/

/-- C1 (counterexample): the claim says a success verdict halts *both* loop
variants immediately with status `DONE`.  On the all-success generator the
guarded loop's very first iteration succeeds, yet the run does not stop
there with `DONE`: it keeps looping (success only resets the fail streak)
and ends with `MAX_ATTEMPTS_EXHAUSTED` after the full two iterations. -/
theorem C1_counterexample :
    ((run_guarded_agent_loop 2 3 gZero).trace.get? 0).map
        (fun gs => gs.outcome.success) = some true ∧
    (run_guarded_agent_loop 2 3 gZero).status = LoopStatus.MAX_ATTEMPTS_EXHAUSTED ∧
    (run_guarded_agent_loop 2 3 gZero).trace.length = 2 := by
  norm_num [run_guarded_agent_loop, run_guarded_loop, do_step, pretend_plan, pretend_act,
    pretend_check, update_state_after_attempt, randUnit, randChoice, next_streak,
    initState, gZero, plansList, actionsList, min_def]

/-- C1 (amended): only in the naive loop does a success verdict halt the run
immediately with status `DONE` (a successful iteration is always the last
one of the trace); the guarded loop never reports `DONE` at all — its
success branch merely resets the fail streak and the loop continues. -/
theorem C1_success_halts :
    (∀ (ma : ℕ) (g : Rng) (i : ℕ) (step : StepOutcome),
        (run_naive_agent_loop ma g).trace.get? i = some step → step.success = true →
          (run_naive_agent_loop ma g).status = LoopStatus.DONE ∧
          i + 1 = (run_naive_agent_loop ma g).trace.length) ∧
    (∀ (ma stop : ℕ) (g : Rng),
        (run_guarded_agent_loop ma stop g).status ≠ LoopStatus.DONE) := by
  constructor
  · intro ma g i step hm hs
    exact naive_success_last ma initState g i step hm hs
  · intro ma stop g
    show (run_guarded_loop ma initState 0 stop g).status ≠ LoopStatus.DONE
    rcases guarded_status ma initState 0 stop g with h | h <;> rw [h] <;> simp

/-- C1 witness: on the all-success generator the naive loop's first
iteration succeeds, so the run reports `DONE` with a one-element trace. -/
theorem C1_success_halts_witness :
    (run_naive_agent_loop 5 gZero).status = LoopStatus.DONE ∧
    0 + 1 = (run_naive_agent_loop 5 gZero).trace.length := by
  refine C1_success_halts.1 5 gZero 0
    ⟨"Try the most likely fix first.", "Apply patch A (fast).", "PASS (unexpected)", true,
     ⟨1, 12/100, 45/100, "PASS (unexpected)"⟩⟩ ?_ rfl
  norm_num [run_naive_agent_loop, run_naive_loop, do_step, pretend_plan, pretend_act,
    pretend_check, update_state_after_attempt, randUnit, randChoice,
    initState, gZero, plansList, actionsList, min_def]

/-- C2: under every configuration — any `max_attempts`, any (or no effective)
fail-streak threshold, any random stream — both loops halt within
`max_attempts` iterations, and the attempts counter of every state reached
never exceeds `max_attempts`.  (Termination itself is structural: each loop
is a bounded recursion on the unconditional step ceiling.) -/
theorem C2_bounded_termination :
    ∀ (ma stop : ℕ) (g : Rng),
      (run_naive_agent_loop ma g).trace.length ≤ ma ∧
      (run_guarded_agent_loop ma stop g).trace.length ≤ ma ∧
      (∀ step ∈ (run_naive_agent_loop ma g).trace, step.stateAfter.attempts ≤ ma) ∧
      (∀ gs ∈ (run_guarded_agent_loop ma stop g).trace,
        gs.outcome.stateAfter.attempts ≤ ma) := by
  intro ma stop g
  simp only [run_naive_agent_loop, run_guarded_agent_loop]
  have N := naive_spec ma initState g
  have G := guarded_spec ma initState 0 stop g
  refine ⟨N.1, G.1, ?_, ?_⟩
  · intro step hm
    obtain ⟨⟨i, hi⟩, rfl⟩ := List.mem_iff_get.mp hm
    have h := (N.2 i hi).1
    rw [h, show initState.attempts = 0 from rfl]
    have := N.1
    omega
  · intro gs hm
    obtain ⟨⟨i, hi⟩, rfl⟩ := List.mem_iff_get.mp hm
    have h := (G.2 i hi).1
    rw [h, show initState.attempts = 0 from rfl]
    have := G.1
    omega

/-- C2 witness: with the all-failure generator and `max_attempts = 2` the
first naive snapshot (1 attempt, cost 0.12, confidence 0.41) respects the
attempts ceiling. -/
theorem C2_bounded_termination_witness :
    (⟨"Try the most likely fix first.", "Apply patch A (fast).",
      "FAIL (root cause unchanged)", false,
      ⟨1, 12/100, 41/100, "FAIL (root cause unchanged)"⟩⟩ : StepOutcome).stateAfter.attempts
      ≤ 2 := by
  refine (C2_bounded_termination 2 3 gHalf).2.2.1 _ ?_
  norm_num [run_naive_agent_loop, run_naive_loop, do_step, pretend_plan, pretend_act,
    pretend_check, update_state_after_attempt, randUnit, randChoice,
    initState, gHalf, plansList, actionsList, min_def]

/-- C3: the whole program's observable behaviour (both loops' step outcomes
and snapshots, run back to back on the same generator) is a function of the
seeded generator alone: two runs from equal generator states produce
identical traces. -/
theorem C3_seed_reproducibility :
    ∀ g1 g2 : Rng, g1 = g2 → main_run g1 = main_run g2 := by
  intro g1 g2 h
  rw [h]

/-- C3 witness: replaying the program on the same generator state reproduces
the trace. -/
theorem C3_seed_reproducibility_witness : main_run gHalf = main_run gHalf :=
  C3_seed_reproducibility gHalf gHalf rfl

/-- C4: in both loops, after every iteration the accumulated cost equals the
attempts counter times the per-step cost 0.12 (cost is charged
unconditionally once per attempt), and the cost is non-decreasing along the
trace. -/
theorem C4_cost_accounting :
    ∀ (ma stop : ℕ) (g : Rng),
      (∀ (i : ℕ) (step : StepOutcome),
        (run_naive_agent_loop ma g).trace.get? i = some step →
          step.stateAfter.total_cost = (step.stateAfter.attempts : ℚ) * (12/100)) ∧
      (∀ (i j : ℕ) (si sj : StepOutcome),
        (run_naive_agent_loop ma g).trace.get? i = some si →
        (run_naive_agent_loop ma g).trace.get? j = some sj → i ≤ j →
          si.stateAfter.total_cost ≤ sj.stateAfter.total_cost) ∧
      (∀ (i : ℕ) (gs : GuardedStep),
        (run_guarded_agent_loop ma stop g).trace.get? i = some gs →
          gs.outcome.stateAfter.total_cost =
            (gs.outcome.stateAfter.attempts : ℚ) * (12/100)) ∧
      (∀ (i j : ℕ) (gi gj : GuardedStep),
        (run_guarded_agent_loop ma stop g).trace.get? i = some gi →
        (run_guarded_agent_loop ma stop g).trace.get? j = some gj → i ≤ j →
          gi.outcome.stateAfter.total_cost ≤ gj.outcome.stateAfter.total_cost) := by
  intro ma stop g
  simp only [run_naive_agent_loop, run_guarded_agent_loop]
  have N := naive_spec ma initState g
  have G := guarded_spec ma initState 0 stop g
  refine ⟨?_, ?_, ?_, ?_⟩
  · intro i step hm
    obtain ⟨hi, rfl⟩ := List.get?_eq_some.mp hm
    rw [(N.2 i hi).2, (N.2 i hi).1]
    simp only [initState]
    push_cast
    ring
  · intro i j si sj hmi hmj hij
    obtain ⟨hi, rfl⟩ := List.get?_eq_some.mp hmi
    obtain ⟨hj, rfl⟩ := List.get?_eq_some.mp hmj
    rw [(N.2 i hi).2, (N.2 j hj).2]
    have hc : ((i : ℚ) + 1) ≤ ((j : ℚ) + 1) := by
      have : (i : ℚ) ≤ j := by exact_mod_cast hij
      linarith
    exact add_le_add_left (mul_le_mul_of_nonneg_right hc (by norm_num)) _
  · intro i gs hm
    obtain ⟨hi, rfl⟩ := List.get?_eq_some.mp hm
    rw [(G.2 i hi).2, (G.2 i hi).1]
    simp only [initState]
    push_cast
    ring
  · intro i j gi gj hmi hmj hij
    obtain ⟨hi, rfl⟩ := List.get?_eq_some.mp hmi
    obtain ⟨hj, rfl⟩ := List.get?_eq_some.mp hmj
    rw [(G.2 i hi).2, (G.2 j hj).2]
    have hc : ((i : ℚ) + 1) ≤ ((j : ℚ) + 1) := by
      have : (i : ℚ) ≤ j := by exact_mod_cast hij
      linarith
    exact add_le_add_left (mul_le_mul_of_nonneg_right hc (by norm_num)) _

/-- C4 witness: the first snapshot of an all-failure naive run carries cost
0.12 = 1 × 0.12. -/
theorem C4_cost_accounting_witness :
    (⟨"Try the most likely fix first.", "Apply patch A (fast).",
      "FAIL (root cause unchanged)", false,
      ⟨1, 12/100, 41/100, "FAIL (root cause unchanged)"⟩⟩ : StepOutcome).stateAfter.total_cost
      = ((⟨"Try the most likely fix first.", "Apply patch A (fast).",
          "FAIL (root cause unchanged)", false,
          ⟨1, 12/100, 41/100, "FAIL (root cause unchanged)"⟩⟩ :
            StepOutcome).stateAfter.attempts : ℚ) * (12/100) := by
  refine (C4_cost_accounting 2 3 gHalf).1 0 _ ?_
  norm_num [run_naive_agent_loop, run_naive_loop, do_step, pretend_plan, pretend_act,
    pretend_check, update_state_after_attempt, randUnit, randChoice,
    initState, gHalf, plansList, actionsList, min_def]

/-- C5: confidence starts at its declared initial value 0.35 and, in every
snapshot of every run of either loop, never exceeds 0.99 — both caps
(`min 0.99` on success, `min 0.95` on failure) keep it below the bound no
matter how many updates are applied. -/
theorem C5_confidence_bounded :
    initState.confidence = 35/100 ∧
    (∀ (ma : ℕ) (g : Rng) (step : StepOutcome),
      step ∈ (run_naive_agent_loop ma g).trace → step.stateAfter.confidence ≤ 99/100) ∧
    (∀ (ma stop : ℕ) (g : Rng) (gs : GuardedStep),
      gs ∈ (run_guarded_agent_loop ma stop g).trace →
        gs.outcome.stateAfter.confidence ≤ 99/100) := by
  refine ⟨rfl, ?_, ?_⟩
  · intro ma g step hm
    exact naive_conf ma initState g step hm
  · intro ma stop g gs hm
    exact guarded_conf ma initState 0 stop g gs hm

/-- C5 witness: the first snapshot of an all-failure naive run has
confidence 0.41 ≤ 0.99. -/
theorem C5_confidence_bounded_witness :
    (⟨"Try the most likely fix first.", "Apply patch A (fast).",
      "FAIL (root cause unchanged)", false,
      ⟨1, 12/100, 41/100, "FAIL (root cause unchanged)"⟩⟩ : StepOutcome).stateAfter.confidence
      ≤ 99/100 := by
  refine C5_confidence_bounded.2.1 2 gHalf _ ?_
  norm_num [run_naive_agent_loop, run_naive_loop, do_step, pretend_plan, pretend_act,
    pretend_check, update_state_after_attempt, randUnit, randChoice,
    initState, gHalf, plansList, actionsList, min_def]

/-- C6: in the guarded loop the fail streak counts consecutive failed checks
(first snapshot: 0 on success, 1 on failure; later snapshots: reset to 0 on
success, previous streak plus one on failure), and any snapshot whose streak
has reached the configured `fail_streak_stop` is the last one of the run,
with terminal status `ESCALATE_TO_HUMAN`. -/
theorem C6_fail_streak_policy :
    ∀ (ma stop : ℕ) (g : Rng),
      (∀ gs : GuardedStep,
        (run_guarded_agent_loop ma stop g).trace.get? 0 = some gs →
          gs.fail_streak = if gs.outcome.success then 0 else 1) ∧
      (∀ (i : ℕ) (gsp gs : GuardedStep),
        (run_guarded_agent_loop ma stop g).trace.get? i = some gsp →
        (run_guarded_agent_loop ma stop g).trace.get? (i + 1) = some gs →
          gs.fail_streak = if gs.outcome.success then 0 else gsp.fail_streak + 1) ∧
      (∀ (i : ℕ) (gs : GuardedStep),
        (run_guarded_agent_loop ma stop g).trace.get? i = some gs →
        stop ≤ gs.fail_streak →
          (run_guarded_agent_loop ma stop g).status = LoopStatus.ESCALATE_TO_HUMAN ∧
          i + 1 = (run_guarded_agent_loop ma stop g).trace.length) := by
  intro ma stop g
  simp only [run_guarded_agent_loop]
  have S := guarded_streak_spec ma initState 0 stop g
  refine ⟨?_, ?_, S.2.2⟩
  · intro gs hm
    have h := S.1 gs hm
    rw [h]
    rfl
  · intro i gsp gs hmp hm
    have h := S.2.1 i gsp gs hmp hm
    rw [h]
    rfl

/-- C6 witness: with the all-failure generator and threshold 3, the guarded
run escalates exactly at its third iteration (streak 1, 2, 3). -/
theorem C6_fail_streak_policy_witness :
    (run_guarded_agent_loop 10 3 gHalf).status = LoopStatus.ESCALATE_TO_HUMAN ∧
    2 + 1 = (run_guarded_agent_loop 10 3 gHalf).trace.length := by
  refine (C6_fail_streak_policy 10 3 gHalf).2.2 2
    ⟨⟨"Try the most likely fix first.", "Apply patch A (fast).",
      "FAIL (root cause unchanged)", false,
      ⟨3, 36/100, 53/100, "FAIL (root cause unchanged)"⟩⟩, 3⟩ ?_ ?_
  · norm_num [run_guarded_agent_loop, run_guarded_loop, do_step, pretend_plan, pretend_act,
      pretend_check, update_state_after_attempt, randUnit, randChoice, next_streak,
      initState, gHalf, plansList, actionsList, min_def]
  · norm_num

/-- C7: the naive loop (no fail-streak policy configured) can only halt with
`DONE` (success verdict) or `MAX_ATTEMPTS_EXHAUSTED` (attempt exhaustion);
in particular the escalation status is unreachable for every run. -/
theorem C7_naive_halt_reasons :
    ∀ (ma : ℕ) (g : Rng),
      (run_naive_agent_loop ma g).status = LoopStatus.DONE ∨
      (run_naive_agent_loop ma g).status = LoopStatus.MAX_ATTEMPTS_EXHAUSTED :=
  fun ma g => naive_status ma initState g

/-- C8: (spec-modelled — the validator script is not under `src/`) any
simulated model response that fails strict structured parsing, by missing a
required field or carrying a disallowed action value, yields the fixed
heuristic decision: the total fallback function returns it whenever the
single parse attempt fails, so malformed output never crashes, halts, or
re-parses. -/
theorem C8_malformed_output_fallback :
    ∀ resp : List (String × String),
      parse_model_output resp = none →
        decide_from_model_output resp = heuristic_decision := by
  intro resp h
  simp [decide_from_model_output, h]

/-- C8 witness: a response with a disallowed action value and a missing
`reason` field falls back to the heuristic decision. -/
theorem C8_malformed_output_fallback_witness :
    decide_from_model_output [("action", "LAUNCH")] = heuristic_decision := by
  exact C8_malformed_output_fallback [("action", "LAUNCH")] rfl

/-- C9 (counterexample): the claim says every update leaves confidence at or
above its previous value.  On a generator giving seven successes then a
failure, the guarded run's seventh snapshot has confidence 0.99 and its
eighth has 0.95: the failure update lowered confidence. -/
theorem C9_counterexample :
    ((run_guarded_agent_loop 8 3 gSevenWins).trace.get? 6).map
        (fun gs => gs.outcome.stateAfter.confidence) = some (99/100) ∧
    ((run_guarded_agent_loop 8 3 gSevenWins).trace.get? 7).map
        (fun gs => gs.outcome.stateAfter.confidence) = some (95/100) ∧
    ¬ ((99 : ℚ)/100 ≤ 95/100) := by
  norm_num [run_guarded_agent_loop, run_guarded_loop, do_step, pretend_plan, pretend_act,
    pretend_check, update_state_after_attempt, randUnit, randChoice, next_streak,
    initState, gSevenWins, plansList, actionsList, min_def]

/-- C9 (amended): a success update never lowers confidence as long as the
prior value is at most 0.99 (which every reachable state satisfies), and a
failure update never lowers it as long as the prior value is at most 0.95;
but a failure update applied above 0.95 — reachable in the guarded loop
after consecutive successes — clamps confidence down to 0.95. -/
theorem C9_confidence_drift :
    ∀ (s : DemoState) (r : String),
      (s.confidence ≤ 99/100 →
        s.confidence ≤ (update_state_after_attempt s true r).confidence) ∧
      (s.confidence ≤ 95/100 →
        s.confidence ≤ (update_state_after_attempt s false r).confidence) ∧
      (95/100 < s.confidence →
        (update_state_after_attempt s false r).confidence = 95/100) :=
  fun s r =>
    ⟨update_conf_mono_success s r, update_conf_mono_fail s r, update_conf_fail_clamp s r⟩

/-- C9 witness: from the initial state (confidence 0.35) a success update
does not lower confidence. -/
theorem C9_confidence_drift_witness :
    initState.confidence ≤
      (update_state_after_attempt initState true "PASS (unexpected)").confidence :=
  (C9_confidence_drift initState "PASS (unexpected)").1 (by norm_num [initState])

/-- C10: the check verdict is independent of the loop state — `pretend_check`
returns the same (success, result) pair and successor generator for any two
states given the same random stream — and success holds exactly when the
drawn unit value is below the fixed probability 0.05, which no state field
can influence. -/
theorem C10_check_state_independent :
    ∀ (s1 s2 : DemoState) (g : Rng),
      pretend_check s1 g = pretend_check s2 g ∧
      ((pretend_check s1 g).1.1 = true ↔ (randUnit g).1 < 5/100) := by
  intro s1 s2 g
  refine ⟨rfl, ?_⟩
  by_cases h : (randUnit g).1 < 5/100
  · simp [pretend_check, h]
  · simp [pretend_check, h]

end Demo
